import Mathlib

/-!
Verification of the tool-invocation gateway (`app.py`) of the LPG voice-assistant
repository.  The Python source is shallowly embedded below: JSON/Python values are
an inductive `PyVal`, Python's dynamic operations (`dict.get`, truthiness, `int()`,
subscripting) are explicit functions returning `Except PyErr _`, the external
Supabase tables and the Redis cache are fields of an explicit `ServerState`, and
the `/tools` endpoint is the pure function `toolsRun`.  Collaborator behaviour
that the repository relies on but does not define (the `phonenumbers` library
and PostgREST's `.single()` raising on a non-single result set, which the code's
own comment in `check_idempotency` documents) is modelled where noted.
-/

namespace LPG

/-- Python/JSON values as they appear in the webhook payloads.  Floats are not
modelled (no code path under verification involves them). -/
inductive PyVal where
  | none : PyVal
  | bool : Bool → PyVal
  | int : Int → PyVal
  | str : String → PyVal
  | list : List PyVal → PyVal
  | dict : List (String × PyVal) → PyVal

/-- The Python exception kinds that the embedded code can raise or catch. -/
inductive PyErrKind where
  | typeError
  | keyError
  | indexError
  | attributeError
  | valueError
  | runtimeError
  | apiError
deriving Repr, DecidableEq

/-- A raised Python exception: its kind and the text `str(e)` yields. -/
structure PyErr where
  kind : PyErrKind
  msg : String
deriving Repr, DecidableEq

/-- Python truthiness (`bool(v)`). -/
def pyTruthy : PyVal → Bool
  | .none => false
  | .bool b => b
  | .int n => n != 0
  | .str s => s != ""
  | .list xs => !xs.isEmpty
  | .dict kvs => !kvs.isEmpty

/-- Python `a or b`: `a` when truthy, else `b`. -/
def pyOr (a b : PyVal) : PyVal := if pyTruthy a then a else b

/-- `d.get(k, default)`; raises `AttributeError` when `d` is not a dict. -/
def pyGet (d : PyVal) (k : String) (default : PyVal) : Except PyErr PyVal :=
  match d with
  | .dict kvs =>
    match kvs.find? (fun kv => kv.1 == k) with
    | some kv => .ok kv.2
    | Option.none => .ok default
  | _ => .error ⟨.attributeError, "object has no attribute get"⟩

/-- Python subscripting `c[i]` for the shapes the endpoint exercises:
list/str by integer index, dict by string key; anything else is a `TypeError`. -/
def pySubscript (c i : PyVal) : Except PyErr PyVal :=
  match c, i with
  | .list xs, .int n =>
    if h : 0 ≤ n ∧ n.toNat < xs.length then .ok (xs.get ⟨n.toNat, h.2⟩)
    else .error ⟨.indexError, "list index out of range"⟩
  | .str s, .int n =>
    if h : 0 ≤ n ∧ n.toNat < s.data.length then .ok (.str ⟨[s.data.get ⟨n.toNat, h.2⟩]⟩)
    else .error ⟨.indexError, "string index out of range"⟩
  | .dict kvs, .str k =>
    match kvs.find? (fun kv => kv.1 == k) with
    | some kv => .ok kv.2
    | Option.none => .error ⟨.keyError, "'" ++ k ++ "'"⟩
  | .dict _, _ => .error ⟨.keyError, "unhashable or absent key"⟩
  | _, _ => .error ⟨.typeError, "object is not subscriptable"⟩

/-- Python `str.strip()` (leading/trailing whitespace removed). -/
def stripStr (s : String) : String :=
  ⟨((s.data.dropWhile Char.isWhitespace).reverse.dropWhile Char.isWhitespace).reverse⟩

/-- Lower-casing on the character list (kernel-reducible equivalent of
`str.lower()`; like Lean's `Char.toLower`, ASCII letters only). -/
def strLower (s : String) : String := ⟨s.data.map Char.toLower⟩

/-- `str.replace(c, "")` for a single-character pattern: drop every
occurrence. -/
def removeChar (c : Char) (s : String) : String := ⟨s.data.filter (fun x => x != c)⟩

/-- `v.strip()` on a dynamic value; raises `AttributeError` when not a string. -/
def pyStripE (v : PyVal) : Except PyErr String :=
  match v with
  | .str s => .ok (stripStr s)
  | _ => .error ⟨.attributeError, "object has no attribute strip"⟩

/-- `v.lower()` on a dynamic value; raises `AttributeError` when not a string. -/
def pyLowerE (v : PyVal) : Except PyErr String :=
  match v with
  | .str s => .ok (strLower s)
  | _ => .error ⟨.attributeError, "object has no attribute lower"⟩

/-- Integer-literal parse used by `int(str)`: optional sign, one or more digits,
surrounded by optional whitespace. -/
def parseIntStr (s : String) : Option Int :=
  let t := (stripStr s).data
  let (sign, digits) :=
    match t with
    | '-' :: rest => ((-1 : Int), rest)
    | '+' :: rest => ((1 : Int), rest)
    | rest => ((1 : Int), rest)
  if digits ≠ [] ∧ digits.all Char.isDigit then
    some (sign * (digits.foldl (fun acc c => acc * 10 + (c.toNat - 48)) 0 : Nat))
  else Option.none

/-- Python `int(v)`: ints pass through, bools coerce, strings parse
(`ValueError` on failure), everything else is a `TypeError`. -/
def pyInt (v : PyVal) : Except PyErr Int :=
  match v with
  | .int n => .ok n
  | .bool b => .ok (if b then 1 else 0)
  | .str s =>
    match parseIntStr s with
    | some n => .ok n
    | Option.none => .error ⟨.valueError, "invalid literal for int() with base 10: '" ++ s ++ "'"⟩
  | .none => .error ⟨.typeError, "int() argument must not be None"⟩
  | _ => .error ⟨.typeError, "int() argument must be a string or a number"⟩

mutual
/-- Python `repr(v)`, used by `str()` on containers. -/
def pyReprOf : PyVal → String
  | .none => "None"
  | .bool true => "True"
  | .bool false => "False"
  | .int n => toString n
  | .str s => "'" ++ s ++ "'"
  | .list xs => "[" ++ pyReprList xs ++ "]"
  | .dict kvs => "\x7b" ++ pyReprDict kvs ++ "\x7d"

def pyReprList : List PyVal → String
  | [] => ""
  | [x] => pyReprOf x
  | x :: rest => pyReprOf x ++ ", " ++ pyReprList rest

def pyReprDict : List (String × PyVal) → String
  | [] => ""
  | [kv] => "'" ++ kv.1 ++ "': " ++ pyReprOf kv.2
  | kv :: rest => "'" ++ kv.1 ++ "': " ++ pyReprOf kv.2 ++ ", " ++ pyReprDict rest
end

/-- Python `str(v)` / f-string interpolation of a dynamic value. -/
def pyStrOf : PyVal → String
  | .none => "None"
  | .bool true => "True"
  | .bool false => "False"
  | .int n => toString n
  | .str s => s
  | .list xs => "[" ++ pyReprList xs ++ "]"
  | .dict kvs => "\x7b" ++ pyReprDict kvs ++ "\x7d"

/-- Python `v == s` for a string literal `s`: false on any non-string value. -/
def pyEqStr (v : PyVal) (s : String) : Bool :=
  match v with
  | .str t => t == s
  | _ => false

/-- Does the first list start with the second? -/
def listStartsWith : List Char → List Char → Bool
  | _, [] => true
  | [], _ :: _ => false
  | a :: as, b :: bs => a == b && listStartsWith as bs

/-- Does the first list contain the second as a contiguous sublist? -/
def listHasSub : List Char → List Char → Bool
  | h, n =>
    if listStartsWith h n then true
    else match h with
      | [] => false
      | _ :: t => listHasSub t n

/-- Boolean substring test (`needle in haystack` on Python strings). -/
def strContains (haystack needle : String) : Bool :=
  listHasSub haystack.data needle.data

/-- Lower-case hexadecimal digit. -/
def hexDig (n : Nat) : Char :=
  if n < 10 then Char.ofNat (48 + n) else Char.ofNat (87 + n)

/-- Four-hex-digit rendering of a value below 2^16. -/
def hex4 (n : Nat) : String :=
  ⟨(List.range 4).map (fun i => hexDig ((n >>> (4 * (3 - i))) % 16))⟩

/-- JSON `\uXXXX` escape (with a surrogate pair above the BMP),
as produced by `json.dumps` with its default `ensure_ascii=True`. -/
def uEscape (n : Nat) : String :=
  if n < 0x10000 then "\\u" ++ hex4 n
  else
    let m := n - 0x10000
    "\\u" ++ hex4 (0xD800 + m / 0x400) ++ "\\u" ++ hex4 (0xDC00 + m % 0x400)

/-- Escape one character the way `json.dumps` renders string contents. -/
def jsonEscapeChar (c : Char) : String :=
  if c = '"' then "\\\""
  else if c = '\\' then "\\\\"
  else if c = '\n' then "\\n"
  else if c = '\t' then "\\t"
  else if c = '\r' then "\\r"
  else if c = Char.ofNat 8 then "\\b"
  else if c = Char.ofNat 12 then "\\f"
  else if c.toNat < 0x20 || c.toNat > 0x7E then uEscape c.toNat
  else String.singleton c

/-- A JSON string literal for `s`, escaped as `json.dumps` does. -/
def jsonQuote (s : String) : String :=
  "\"" ++ String.join (s.data.map jsonEscapeChar) ++ "\""

/-- Join rendered fragments with the default `json.dumps` item separator. -/
def joinComma : List String → String
  | [] => ""
  | [x] => x
  | x :: rest => x ++ ", " ++ joinComma rest

/-- Key order used by `sort_keys=True`: compare rendered object entries by
their original key. -/
def keyLe (a b : String × String) : Prop := a.1 ≤ b.1

instance : DecidableRel keyLe := fun a b => inferInstanceAs (Decidable (a.1 ≤ b.1))

instance : IsTotal (String × String) keyLe := ⟨fun a b => le_total a.1 b.1⟩

instance : IsTrans (String × String) keyLe := ⟨fun _ _ _ h1 h2 => le_trans h1 h2⟩

mutual
/-- `json.dumps(v, sort_keys=sortKeys)`: the serializer the gateway uses both
for the idempotency fingerprint (`sort_keys=True`) and for stored parameter
blobs (`sort_keys=False`).  Default separators `", "` / `": "` are kept. -/
def jsonValue (sortKeys : Bool) : PyVal → String
  | .none => "null"
  | .bool true => "true"
  | .bool false => "false"
  | .int n => toString n
  | .str s => jsonQuote s
  | .list xs => "[" ++ joinComma (jsonArrayItems sortKeys xs) ++ "]"
  | .dict kvs =>
    let rendered := jsonObjectItems sortKeys kvs
    let ordered :=
      if sortKeys then rendered.insertionSort keyLe else rendered
    "\x7b" ++ joinComma (ordered.map (fun p => p.2)) ++ "\x7d"

def jsonArrayItems (sortKeys : Bool) : List PyVal → List String
  | [] => []
  | x :: rest => jsonValue sortKeys x :: jsonArrayItems sortKeys rest

def jsonObjectItems (sortKeys : Bool) : List (String × PyVal) → List (String × String)
  | [] => []
  | kv :: rest =>
    (kv.1, jsonQuote kv.1 ++ ": " ++ jsonValue sortKeys kv.2) :: jsonObjectItems sortKeys rest
end

/-- `json.dumps(v, sort_keys=True)` — the canonical form hashed for idempotency. -/
def jsonDumpsSorted (v : PyVal) : String := jsonValue true v

/-- `json.dumps(v)` — insertion order kept, used for stored parameter blobs. -/
def jsonDumps (v : PyVal) : String := jsonValue false v

/-- Skip JSON whitespace. -/
def skipWs : List Char → List Char
  | c :: rest =>
    if c = ' ' || c = '\t' || c = '\n' || c = '\r' then skipWs rest else c :: rest
  | [] => []

/-- Decode a single-character JSON escape. -/
def escChar (e : Char) : Option Char :=
  if e = '"' then some '"'
  else if e = '\\' then some '\\'
  else if e = '/' then some '/'
  else if e = 'b' then some (Char.ofNat 8)
  else if e = 'f' then some (Char.ofNat 12)
  else if e = 'n' then some '\n'
  else if e = 'r' then some '\r'
  else if e = 't' then some '\t'
  else Option.none

/-- Is this character a hexadecimal digit? -/
def isHexDig (h : Char) : Bool :=
  h.isDigit || ('a' ≤ h && h ≤ 'f') || ('A' ≤ h && h ≤ 'F')

/-- Hexadecimal digit value. -/
def hexVal (h : Char) : Nat :=
  if h.isDigit then h.toNat - 48
  else if 'a' ≤ h && h ≤ 'f' then h.toNat - 87 else h.toNat - 55

/-- Parse the body of a JSON string literal (the opening quote already
consumed).  `\uXXXX` escapes decode to the corresponding code point; surrogate
pairs are not recombined (a modelling simplification of `json.loads`). -/
def parseJsonStrBody : List Char → Option (List Char × List Char)
  | [] => Option.none
  | c :: rest =>
    if c = '"' then some ([], rest)
    else if c = '\\' then
      match rest with
      | 'u' :: h1 :: h2 :: h3 :: h4 :: rest3 =>
        if [h1, h2, h3, h4].all isHexDig then
          match parseJsonStrBody rest3 with
          | some (tail, rem) =>
            some (Char.ofNat (((hexVal h1 * 16 + hexVal h2) * 16 + hexVal h3) * 16 + hexVal h4) :: tail, rem)
          | Option.none => Option.none
        else Option.none
      | e :: rest2 =>
        match escChar e with
        | some d =>
          match parseJsonStrBody rest2 with
          | some (tail, rem) => some (d :: tail, rem)
          | Option.none => Option.none
        | Option.none => Option.none
      | [] => Option.none
    else
      match parseJsonStrBody rest with
      | some (tail, rem) => some (c :: tail, rem)
      | Option.none => Option.none

/-- Parse a JSON integer (floats are not modelled; a fractional or exponent
part makes the parse fail). -/
def parseJsonNum (cs : List Char) : Option (Int × List Char) :=
  let (sign, rest) :=
    match cs with
    | '-' :: r => ((-1 : Int), r)
    | r => ((1 : Int), r)
  let digits := rest.takeWhile Char.isDigit
  let rem := rest.dropWhile Char.isDigit
  if digits = [] then Option.none
  else
    match rem with
    | '.' :: _ => Option.none
    | 'e' :: _ => Option.none
    | 'E' :: _ => Option.none
    | _ => some (sign * (digits.foldl (fun acc c => acc * 10 + (c.toNat - 48)) 0 : Nat), rem)

mutual
/-- Fuel-driven recursive-descent JSON value parser modelling `json.loads`. -/
def parseJsonVal : Nat → List Char → Option (PyVal × List Char)
  | 0, _ => Option.none
  | fuel + 1, cs =>
    match skipWs cs with
    | 'n' :: 'u' :: 'l' :: 'l' :: rest => some (.none, rest)
    | 't' :: 'r' :: 'u' :: 'e' :: rest => some (.bool true, rest)
    | 'f' :: 'a' :: 'l' :: 's' :: 'e' :: rest => some (.bool false, rest)
    | '"' :: rest =>
      match parseJsonStrBody rest with
      | some (content, rem) => some (.str ⟨content⟩, rem)
      | Option.none => Option.none
    | c :: rest =>
      if c = Char.ofNat 91 then
        match skipWs rest with
        | d :: rest2 =>
          if d = Char.ofNat 93 then some (.list [], rest2)
          else parseJsonArrItems fuel (d :: rest2) >>= fun (xs, rem) => some (.list xs, rem)
        | [] => Option.none
      else if c = Char.ofNat 123 then
        match skipWs rest with
        | d :: rest2 =>
          if d = Char.ofNat 125 then some (.dict [], rest2)
          else parseJsonObjItems fuel (d :: rest2) >>= fun (kvs, rem) => some (.dict kvs, rem)
        | [] => Option.none
      else
        match parseJsonNum (c :: rest) with
        | some (n, rem) => some (.int n, rem)
        | Option.none => Option.none
    | [] => Option.none

def parseJsonArrItems : Nat → List Char → Option (List PyVal × List Char)
  | 0, _ => Option.none
  | fuel + 1, cs =>
    match parseJsonVal fuel cs with
    | some (v, rem) =>
      match skipWs rem with
      | ',' :: rest =>
        parseJsonArrItems fuel rest >>= fun (xs, rem2) => some (v :: xs, rem2)
      | d :: rest => if d = Char.ofNat 93 then some ([v], rest) else Option.none
      | [] => Option.none
    | Option.none => Option.none

def parseJsonObjItems : Nat → List Char → Option (List (String × PyVal) × List Char)
  | 0, _ => Option.none
  | fuel + 1, cs =>
    match skipWs cs with
    | '"' :: rest =>
      match parseJsonStrBody rest with
      | some (key, rem) =>
        match skipWs rem with
        | ':' :: rest2 =>
          match parseJsonVal fuel rest2 with
          | some (v, rem2) =>
            match skipWs rem2 with
            | ',' :: rest3 =>
              parseJsonObjItems fuel rest3 >>= fun (kvs, rem3) =>
                some ((⟨key⟩, v) :: kvs, rem3)
            | d :: rest3 =>
              if d = Char.ofNat 125 then some ([(⟨key⟩, v)], rest3) else Option.none
            | [] => Option.none
          | Option.none => Option.none
        | _ => Option.none
      | Option.none => Option.none
    | _ => Option.none
end

/-- `json.loads(s)`: parse a complete JSON document (floats unsupported in the
model; their absence matters to no verified path). -/
def jsonLoads (s : String) : Option PyVal :=
  match parseJsonVal (2 * s.data.length + 2) s.data with
  | some (v, rem) => if skipWs rem = [] then some v else Option.none
  | Option.none => Option.none

/-- UTF-8 encoding of one code point, as a list of byte values. -/
def utf8Char (c : Char) : List Nat :=
  let n := c.toNat
  if n < 0x80 then [n]
  else if n < 0x800 then [0xC0 ||| (n >>> 6), 0x80 ||| (n &&& 0x3F)]
  else if n < 0x10000 then
    [0xE0 ||| (n >>> 12), 0x80 ||| ((n >>> 6) &&& 0x3F), 0x80 ||| (n &&& 0x3F)]
  else
    [0xF0 ||| (n >>> 18), 0x80 ||| ((n >>> 12) &&& 0x3F),
     0x80 ||| ((n >>> 6) &&& 0x3F), 0x80 ||| (n &&& 0x3F)]

/-- UTF-8 bytes of a string (`str.encode()`), each byte a `Nat` below 256. -/
def utf8Bytes (s : String) : List Nat := (s.data.map utf8Char).flatten

/-- Addition modulo 2^32. -/
def add32 (a b : Nat) : Nat := (a + b) % 4294967296

/-- Right rotation of a 32-bit word. -/
def rotr32 (n x : Nat) : Nat := ((x >>> n) ||| (x <<< (32 - n))) % 4294967296

/-- SHA-256 Ch function. -/
def shaCh (x y z : Nat) : Nat := (x &&& y) ^^^ ((x ^^^ 0xFFFFFFFF) &&& z)

/-- SHA-256 Maj function. -/
def shaMaj (x y z : Nat) : Nat := (x &&& y) ^^^ (x &&& z) ^^^ (y &&& z)

/-- SHA-256 Σ0. -/
def bigSigma0 (x : Nat) : Nat := rotr32 2 x ^^^ rotr32 13 x ^^^ rotr32 22 x

/-- SHA-256 Σ1. -/
def bigSigma1 (x : Nat) : Nat := rotr32 6 x ^^^ rotr32 11 x ^^^ rotr32 25 x

/-- SHA-256 σ0. -/
def smallSigma0 (x : Nat) : Nat := rotr32 7 x ^^^ rotr32 18 x ^^^ (x >>> 3)

/-- SHA-256 σ1. -/
def smallSigma1 (x : Nat) : Nat := rotr32 17 x ^^^ rotr32 19 x ^^^ (x >>> 10)

/-- SHA-256 round constants (decimal rendering of the FIPS 180-4 table). -/
def shaK : List Nat :=
  [1116352408, 1899447441, 3049323471, 3921009573, 961987163,
   1508970993, 2453635748, 2870763221, 3624381080, 310598401,
   607225278, 1426881987, 1925078388, 2162078206, 2614888103,
   3248222580, 3835390401, 4022224774, 264347078, 604807628,
   770255983, 1249150122, 1555081692, 1996064986, 2554220882,
   2821834349, 2952996808, 3210313671, 3336571891, 3584528711,
   113926993, 338241895, 666307205, 773529912, 1294757372,
   1396182291, 1695183700, 1986661051, 2177026350, 2456956037,
   2730485921, 2820302411, 3259730800, 3345764771, 3516065817,
   3600352804, 4094571909, 275423344, 430227734, 506948616,
   659060556, 883997877, 958139571, 1322822218, 1537002063,
   1747873779, 1955562222, 2024104815, 2227730452, 2361852424,
   2428436474, 2756734187, 3204031479, 3329325298]

/-- SHA-256 initial hash state (decimal rendering). -/
def shaH0 : List Nat :=
  [1779033703, 3144134277, 1013904242, 2773480762,
   1359893119, 2600822924, 528734635, 1541459225]

/-- 8-byte big-endian encoding of a value. -/
def be64 (n : Nat) : List Nat :=
  (List.range 8).map (fun i => (n >>> (8 * (7 - i))) % 256)

/-- Pad a byte message to a whole number of 64-byte blocks. -/
def shaPad (msg : List Nat) : List Nat :=
  let len := msg.length
  msg ++ [0x80] ++ List.replicate ((119 - len % 64) % 64) 0 ++ be64 (8 * len)

/-- Split a byte list into 64-byte chunks (fuel keeps the recursion
structural; the fuel in `chunk64` always suffices). -/
def chunk64Go : Nat → List Nat → List (List Nat)
  | 0, _ => []
  | _, [] => []
  | fuel + 1, a :: rest => (a :: rest.take 63) :: chunk64Go fuel (rest.drop 63)

/-- Split a byte list into 64-byte chunks. -/
def chunk64 (l : List Nat) : List (List Nat) := chunk64Go (l.length + 1) l

/-- Combine four consecutive bytes into 32-bit words. -/
def bytesToWords : List Nat → List Nat
  | b0 :: b1 :: b2 :: b3 :: rest => (((b0 * 256 + b1) * 256 + b2) * 256 + b3) :: bytesToWords rest
  | _ => []

/-- SHA-256 message schedule: extend 16 words to 64. -/
def shaSchedule (ws : List Nat) : Array Nat :=
  (List.range 48).foldl
    (fun w _ =>
      let i := w.size
      w.push (add32 (add32 (smallSigma1 (w.getD (i - 2) 0)) (w.getD (i - 7) 0))
                    (add32 (smallSigma0 (w.getD (i - 15) 0)) (w.getD (i - 16) 0))))
    ws.toArray

/-- One SHA-256 compression round. -/
def shaRound (state : Nat × Nat × Nat × Nat × Nat × Nat × Nat × Nat) (kw : Nat × Nat) :
    Nat × Nat × Nat × Nat × Nat × Nat × Nat × Nat :=
  let (a, b, c, d, e, f, g, h) := state
  let t1 := add32 (add32 (add32 h (bigSigma1 e)) (add32 (shaCh e f g) kw.1)) kw.2
  let t2 := add32 (bigSigma0 a) (shaMaj a b c)
  (add32 t1 t2, a, b, c, add32 d t1, e, f, g)

/-- Compress one 64-byte block into the running hash. -/
def shaCompress (h : List Nat) (block : List Nat) : List Nat :=
  let w := shaSchedule (bytesToWords block)
  let init := (h.getD 0 0, h.getD 1 0, h.getD 2 0, h.getD 3 0,
               h.getD 4 0, h.getD 5 0, h.getD 6 0, h.getD 7 0)
  let (a, b, c, d, e, f, g, hh) := (shaK.zip w.toList).foldl shaRound init
  [add32 (h.getD 0 0) a, add32 (h.getD 1 0) b, add32 (h.getD 2 0) c,
   add32 (h.getD 3 0) d, add32 (h.getD 4 0) e, add32 (h.getD 5 0) f,
   add32 (h.getD 6 0) g, add32 (h.getD 7 0) hh]

/-- Eight-hex-digit rendering of a 32-bit word. -/
def word32Hex (n : Nat) : String :=
  ⟨(List.range 8).map (fun i => hexDig ((n >>> (4 * (7 - i))) % 16))⟩

/-- SHA-256 digest of a string, as the usual lower-case hex digest
(`hashlib.sha256(s.encode()).hexdigest()`). -/
def sha256hex (s : String) : String :=
  let final := (chunk64 (shaPad (utf8Bytes s))).foldl shaCompress shaH0
  String.join (final.map word32Hex)

/-- The canonical string hashed for idempotency:
`f"{call_id}|{tool_name}|{json.dumps(args, sort_keys=True)}"`. -/
def keyString (call_id tool_name args : PyVal) : String :=
  pyStrOf call_id ++ "|" ++ pyStrOf tool_name ++ "|" ++ jsonDumpsSorted args

/-- `generate_idempotency_key`: SHA-256 hex digest of the canonical string.
The annotations in the source say `str`, but the endpoint passes the raw
(possibly `None`) values, so the arguments are dynamic here as well. -/
def generate_idempotency_key (call_id tool_name args : PyVal) : String :=
  sha256hex (keyString call_id tool_name args)

/-- A row of the `customers` table.  Timestamps are an abstract clock value
(the code only ever compares them for equality); ids are assigned
deterministically by the modelled store. -/
structure Customer where
  id : String
  name : String
  phone : String
  address : String
  email : Option String
  created_at : Nat
  updated_at : Nat

/-- A row of the `orders` table. -/
structure Order where
  id : String
  customer_id : String
  cylinder_size : String
  quantity : Int
  price_kes : Int
  total_amount_kes : Int
  delivery_date : PyVal
  notes : PyVal
  status : String

/-- A row of the `tool_call_idempotency` table. -/
structure IdemRecord where
  idempotency_key : String
  tool_name : PyVal
  call_id : PyVal
  parameters : String
  result : String

/-- A row of the `tool_logs` analytics table. -/
structure LogRow where
  tool_name : PyVal
  parameters : String
  result : String
  call_id : PyVal

/-- The collaborator state the domain handlers can reach: the `customers` and
`orders` tables and the Redis call-state cache (TTL expiry is not modelled; an
expired entry is the same as an absent one).  The handlers never touch the
idempotency or log tables, so those live outside this record. -/
structure DomainState where
  customers : List Customer
  orders : List Order
  calls : List (String × List (String × PyVal))
  now : Nat

/-- The full state of the external collaborators. -/
structure ServerState where
  domain : DomainState
  idem : List IdemRecord
  logs : List LogRow

/-- An initial empty state. -/
def emptyState : ServerState := ⟨⟨[], [], [], 0⟩, [], []⟩

/-- Failure injection for the external store: `dbFail t = some m` makes every
operation on table `t` raise an exception whose `str()` is `m`. -/
structure Env where
  dbFail : String → Option String

/-- The environment in which every store operation succeeds. -/
def envOK : Env := ⟨fun _ => Option.none⟩

/-- `check_idempotency`: select the `result` of the record with this key via
`.single()`.  `.single()` raises unless exactly one row matches (the code's own
comment says the raise is expected for new requests); any exception is caught
and `None` returned. -/
def check_idempotency (env : Env) (st : ServerState) (key : String) : Option String :=
  match env.dbFail "tool_call_idempotency" with
  | some _ => Option.none
  | Option.none =>
    match st.idem.filter (fun r => r.idempotency_key == key) with
    | [r] => some r.result
    | _ => Option.none

/-- `save_idempotency`: insert a record; its own exceptions are swallowed
(logged only), so a failing store leaves the state unchanged. -/
def save_idempotency (env : Env) (st : ServerState) (key : String)
    (tool_name call_id params : PyVal) (result : String) : ServerState :=
  match env.dbFail "tool_call_idempotency" with
  | some _ => st
  | Option.none =>
    { st with idem := st.idem ++ [⟨key, tool_name, call_id, jsonDumps params, result⟩] }

/-- `log_tool_call`: best-effort analytics insert, exceptions swallowed. -/
def log_tool_call (env : Env) (st : ServerState)
    (tool_name params : PyVal) (result : String) (call_id : PyVal) : ServerState :=
  match env.dbFail "tool_logs" with
  | some _ => st
  | Option.none => { st with logs := st.logs ++ [⟨tool_name, jsonDumps params, result, call_id⟩] }

/-- `get_call_state`: read the Redis hash for `call:{call_id}`; an absent key
(or any error) yields the empty mapping. -/
def get_call_state (st : DomainState) (call_id : PyVal) : List (String × PyVal) :=
  match st.calls.find? (fun kv => kv.1 == "call:" ++ pyStrOf call_id) with
  | some kv => kv.2
  | Option.none => []

/-- Python `dict.update`: existing keys overwritten in place, new keys
appended. -/
def dictUpdate (base updates : List (String × PyVal)) : List (String × PyVal) :=
  base.map (fun kv =>
    match updates.find? (fun u => u.1 == kv.1) with
    | some u => (kv.1, u.2)
    | Option.none => kv)
  ++ updates.filter (fun u => !(base.any (fun kv => kv.1 == u.1)))

/-- `set_call_state`: store the mapping under `call:{call_id}`. -/
def set_call_state (st : DomainState) (call_id : PyVal)
    (state : List (String × PyVal)) : DomainState :=
  let key := "call:" ++ pyStrOf call_id
  if st.calls.any (fun kv => kv.1 == key) then
    { st with calls := st.calls.map (fun kv => if kv.1 == key then (kv.1, state) else kv) }
  else { st with calls := st.calls ++ [(key, state)] }

/-- `update_call_state`: read-merge-write. -/
def update_call_state (st : DomainState) (call_id : PyVal)
    (updates : List (String × PyVal)) : DomainState :=
  set_call_state st call_id (dictUpdate (get_call_state st call_id) updates)

/-- Modelled from the collaborator contract: the `phonenumbers` library parse
for region "KE" followed by validity check and E.164 formatting.  Accepts
an already-international `+254…` number, a `254…` number, or a local
`07…`/`01…` number, and yields the E.164 form. -/
def phoneParseKE (s : String) : Option String :=
  let cs := s.data
  if listStartsWith cs ['+', '2', '5', '4'] && cs.length = 13 && (cs.drop 4).all Char.isDigit then
    some s
  else if listStartsWith cs ['2', '5', '4'] && cs.length = 12 && cs.all Char.isDigit then
    some ("+" ++ s)
  else if (listStartsWith cs ['0', '7'] || listStartsWith cs ['0', '1'])
      && cs.length = 10 && cs.all Char.isDigit then
    some ("+254" ++ ⟨cs.drop 1⟩)
  else Option.none

/-- `normalize_phone`: strip spaces/hyphens, try the Kenyan parse, and fall
back to the stripped value on failure.  A non-string input raises inside the
`try` (before the reassignment), is caught, and the original value is
returned unchanged. -/
def normalize_phone (p : PyVal) : PyVal :=
  match p with
  | .str s =>
    let s1 := removeChar '-' (removeChar ' ' (stripStr s))
    match phoneParseKE s1 with
    | some e => .str e
    | Option.none => .str s1
  | v => v

/-- `VALID_CYLINDER_SIZES`. -/
def VALID_CYLINDER_SIZES : List String := ["6kg", "13kg"]

/-- `PRICING`. -/
def PRICING : List (String × Int) := [("6kg", 1200), ("13kg", 2500)]

/-- `validate_cylinder_size`: lower-case and strip, then membership test. -/
def validate_cylinder_size (size : String) : Bool × String :=
  let normalized := stripStr (strLower size)
  if VALID_CYLINDER_SIZES.contains normalized then (true, normalized)
  else (false, "Invalid cylinder size. Please choose either 6kg or 13kg.")

/-- `validate_quantity`: `int()` conversion with `ValueError`/`TypeError`
caught, then the 1..10 range check. -/
def validate_quantity (quantity : PyVal) : Bool × Int × String :=
  match pyInt quantity with
  | .ok qty =>
    if qty ≤ 0 then (false, 0, "Quantity must be greater than zero.")
    else if qty > 10 then
      (false, 0, "For orders above 10 cylinders, please contact our sales team directly.")
    else (true, qty, "")
  | .error _ => (false, 0, "Please provide a valid number for quantity.")

/-- The id the modelled store assigns to the next customer row (stands in for
the database-generated UUID; deterministic in the model). -/
def nextCustomerId (st : DomainState) : String :=
  "cust-" ++ toString (st.customers.length + 1)

/-- The id the modelled store assigns to the next order row. -/
def nextOrderId (st : DomainState) : String :=
  "order-" ++ toString (st.orders.length + 1)

/-- `db_upsert_customer`: find by phone; update the matching rows' details, or
insert a new row.  Every failure is re-raised as
`RuntimeError(f"Database error: {e}")`.  A non-string phone value cannot be
stored in the text column and is modelled as a store rejection. -/
def db_upsert_customer (env : Env) (st : DomainState) (name : String) (phone : PyVal)
    (address : String) (email : Option String) : Except PyErr (Customer × DomainState) :=
  match env.dbFail "customers" with
  | some m => .error ⟨.runtimeError, "Database error: " ++ m⟩
  | Option.none =>
    match phone with
    | .str p =>
      match st.customers.filter (fun c => c.phone == p) with
      | [] =>
        let c : Customer := ⟨nextCustomerId st, name, p, address, email, st.now, st.now⟩
        .ok (c, { st with customers := st.customers ++ [c] })
      | c :: _ =>
        let updRow := fun (x : Customer) =>
          if x.phone == p then
            { x with name := name, address := address, email := email, updated_at := st.now }
          else x
        .ok (updRow c, { st with customers := st.customers.map updRow })
    | _ => .error ⟨.runtimeError, "Database error: invalid input value for phone column"⟩

/-- `db_insert_order`: price lookup, row construction and insert; failures are
re-raised as `RuntimeError(f"Database error: {e}")`. -/
def db_insert_order (env : Env) (st : DomainState) (customer_id cylinder_size : String)
    (quantity : Int) (delivery_date notes : PyVal) : Except PyErr (Order × DomainState) :=
  match env.dbFail "orders" with
  | some m => .error ⟨.runtimeError, "Database error: " ++ m⟩
  | Option.none =>
    match PRICING.find? (fun p => p.1 == cylinder_size) with
    | some pr =>
      let o : Order := ⟨nextOrderId st, customer_id, cylinder_size, quantity, pr.2,
                        pr.2 * quantity, delivery_date, notes, "pending"⟩
      .ok (o, { st with orders := st.orders ++ [o] })
    | Option.none =>
      .error ⟨.runtimeError, "Database error: '" ++ cylinder_size ++ "'"⟩

/-- `phone_from_customer_id`: `.single()` lookup of a phone by customer id,
any exception (including the zero-row raise) caught and `None` returned. -/
def phone_from_customer_id (env : Env) (st : DomainState) (cid : PyVal) : Option String :=
  if !pyTruthy cid then Option.none
  else
    match env.dbFail "customers" with
    | some _ => Option.none
    | Option.none =>
      match cid with
      | .str s =>
        match st.customers.filter (fun c => c.id == s) with
        | [c] => some c.phone
        | _ => Option.none
      | _ => Option.none

/-- The text of the `APIError` PostgREST's `.single()` raises when not exactly
one row matches (modelled collaborator message). -/
def singleRowErrMsg : String := "JSON object requested, multiple (or no) rows returned"

/-- The `customers.select().eq("phone", phone)` query; a non-string phone
value matches no text row. -/
def findCustomersByPhone (st : DomainState) (phone : PyVal) : List Customer :=
  match phone with
  | .str p => st.customers.filter (fun c => c.phone == p)
  | _ => []

/-- Body of `handle_create_customer`'s `try` block; exceptions propagate to
the handler's own `except`. -/
def createCustomerCore (env : Env) (params call_id : PyVal) (st : DomainState) :
    Except PyErr (String × DomainState) := do
  let nameV ← pyGet params "name" (.str "")
  let name ← pyStripE nameV
  let phoneV ← pyGet params "phone" (.str "")
  let phone := normalize_phone phoneV
  let addrV ← pyGet params "address" (.str "")
  let address ← pyStripE addrV
  let emailCond ← pyGet params "email" .none
  let email ← if pyTruthy emailCond then do
      let emailV ← pyGet params "email" (.str "")
      let e ← pyStripE emailV
      pure (some e)
    else pure Option.none
  if name = "" then
    return ("I need your name to create an account. Could you please tell me your name?", st)
  if !pyTruthy phone then
    return ("I need your phone number to create an account. Could you please provide it?", st)
  if address = "" then
    return ("I need your delivery address to create an account. Could you please provide your address?", st)
  let (customer, st1) ← db_upsert_customer env st name phone address email
  let st2 :=
    if pyTruthy call_id then
      update_call_state st1 call_id
        [("customer_id", .str customer.id), ("customer_phone", phone),
         ("customer_name", .str customer.name)]
    else st1
  if customer.created_at ≠ customer.updated_at then
    return ("Welcome back, " ++ customer.name ++ "! I found your existing account. You're all set to place orders.", st2)
  else
    return ("Perfect! Your account has been created successfully, " ++ customer.name ++ ". You can now place orders for LPG cylinders.", st2)

/-- `handle_create_customer`: the core plus its `except Exception` clause.
All raises in the core happen before any write, so the caught-state is the
entry state. -/
def handle_create_customer (env : Env) (params call_id : PyVal) (st : DomainState) :
    String × DomainState :=
  match createCustomerCore env params call_id st with
  | .ok r => r
  | .error e =>
    if strContains (strLower e.msg) "already exists" then
      ("It looks like you already have an account with this phone number. You can proceed to place an order.", st)
    else
      ("I'm sorry—there was an issue creating your account: " ++ e.msg ++ ". Please try again.", st)

/-- Body of `handle_place_order`'s `try` block. -/
def placeOrderCore (env : Env) (params call_id : PyVal) (st : DomainState) :
    Except PyErr (String × DomainState) := do
  let pPhone ← pyGet params "phone" .none
  let csPhone :=
    match (get_call_state st call_id).find? (fun kv => kv.1 == "customer_phone") with
    | some kv => kv.2
    | Option.none => PyVal.none
  let cidV ← pyGet params "customer_id" (.str "")
  let fromCid :=
    match phone_from_customer_id env st cidV with
    | some s => PyVal.str s
    | Option.none => PyVal.none
  let phone_raw := pyOr (pyOr pPhone csPhone) fromCid
  let phone := normalize_phone (pyOr phone_raw (.str ""))
  if !pyTruthy phone then
    return ("I need your phone number to place the order. Could you please provide it?", st)
  let sizeV ← pyGet params "cylinder_size" (.str "")
  let sizeLower ← pyLowerE sizeV
  let (ok_size, size_or_msg) := validate_cylinder_size sizeLower
  if !ok_size then
    return (size_or_msg, st)
  let qtyV ← pyGet params "quantity" (.int 0)
  let (ok_qty, quantity, qty_msg) := validate_quantity qtyV
  if !ok_qty then
    return (qty_msg, st)
  let delivery_date ← pyGet params "delivery_date" .none
  let notes ← pyGet params "notes" (.str "")
  match env.dbFail "customers" with
  | some _ =>
    return ("I'm having trouble finding your account. Please try again or let me create a new account for you.", st)
  | Option.none =>
    match findCustomersByPhone st phone with
    | [] =>
      return ("I couldn't find your account. Please let me create one for you first. Could you please provide your full name and delivery address?", st)
    | customer :: _ =>
      let (order, st1) ← db_insert_order env st customer.id size_or_msg quantity delivery_date notes
      let st2 :=
        if pyTruthy call_id then
          update_call_state st1 call_id
            [("last_order_id", .str order.id), ("last_order_total", .int order.total_amount_kes),
             ("customer_id", .str customer.id)]
        else st1
      let short_id := order.id.take 8
      let delivery_text := if pyTruthy delivery_date then pyStrOf delivery_date else "tomorrow"
      return ("Excellent! Your order has been placed successfully, " ++ customer.name ++
        ". Order ID: " ++ short_id ++ ". You'll receive " ++ toString quantity ++ " × " ++
        size_or_msg ++ " cylinders on " ++ delivery_text ++ " for a total of " ++
        toString order.total_amount_kes ++ " KES. Our delivery team will call you before arrival.", st2)

/-- `handle_place_order`: the core plus `except ValueError` (returns the bare
message) and `except Exception` (apology). -/
def handle_place_order (env : Env) (params call_id : PyVal) (st : DomainState) :
    String × DomainState :=
  match placeOrderCore env params call_id st with
  | .ok r => r
  | .error e =>
    if e.kind = .valueError then (e.msg, st)
    else
      ("I'm sorry—there was an issue placing your order: " ++ e.msg ++ ". Please try again.", st)

/-- The spoken phrase for an order status. -/
def statusPhrase (s : String) : String :=
  if s == "pending" then "is being processed"
  else if s == "confirmed" then "has been confirmed"
  else if s == "out_for_delivery" then "is out for delivery"
  else if s == "delivered" then "has been delivered"
  else if s == "cancelled" then "has been cancelled"
  else "is in progress"

/-- Body of `handle_get_order_status`'s `try` block.  The customer lookup uses
`.single()`, which raises unless exactly one row matches; consequently the
source's `if not customer` branch (the create-an-account prompt) never runs.
The selected row always carries a `delivery_date` key (possibly `None`), so
`.get("delivery_date", "soon")` returns that value, `None` included. -/
def orderStatusCore (env : Env) (params call_id : PyVal) (st : DomainState) :
    Except PyErr (String × DomainState) := do
  let call_state := if pyTruthy call_id then get_call_state st call_id else []
  let pPhone ← pyGet params "phone" (.str "")
  let csPhone :=
    match call_state.find? (fun kv => kv.1 == "customer_phone") with
    | some kv => kv.2
    | Option.none => PyVal.str ""
  let phone := normalize_phone (pyOr pPhone csPhone)
  if !pyTruthy phone then
    return ("I need your phone number to check your order status.", st)
  match env.dbFail "customers" with
  | some m => throw ⟨.apiError, m⟩
  | Option.none =>
    match findCustomersByPhone st phone with
    | [customer] =>
      match env.dbFail "orders" with
      | some m => throw ⟨.apiError, m⟩
      | Option.none =>
        match (st.orders.filter (fun o => o.customer_id == customer.id)).getLast? with
        | Option.none =>
          return ("Hello " ++ customer.name ++ "! I don’t see any orders on file yet. Would you like to place one now?", st)
        | some order =>
          let order_id := order.id.take 8
          let deliver_on := pyStrOf order.delivery_date
          return ("I found your most recent order, " ++ customer.name ++ ". Order " ++
            order_id ++ " for " ++ toString order.quantity ++ " × " ++ order.cylinder_size ++
            " cylinder(s) (total " ++ toString order.total_amount_kes ++ " KES) " ++
            statusPhrase order.status ++ ". Delivery is scheduled for " ++ deliver_on ++ ".", st)
    | _ => throw ⟨.apiError, singleRowErrMsg⟩

/-- `handle_get_order_status`: the core plus its `except Exception` clause. -/
def handle_get_order_status (env : Env) (params call_id : PyVal) (st : DomainState) :
    String × DomainState :=
  match orderStatusCore env params call_id st with
  | .ok r => r
  | .error e =>
    ("I'm sorry, there was an issue checking your order status: " ++ e.msg ++ ". Please try again.", st)

/-- Outcome of the envelope-normalization prefix of the `/tools` endpoint
(lines before the idempotency check), distinguishing where an exception
would surface: before or after `tool_id` is bound. -/
inductive ParsedEnvelope where
  | malformed
  | errNoId
  | errWithId (toolId : PyVal)
  | ok (callId toolId toolName params : PyVal)

/-- The envelope-normalization prefix of `/tools`: extract the conversation
id, the first tool call, its id, name and arguments, decoding string-encoded
arguments (decode failure yields `{}`).  Python's `or` is lazy, so the
fallback `.get` chains are only evaluated when the first operand is falsy. -/
def parseEnvelope (body : PyVal) : ParsedEnvelope :=
  match (do
    let msg1 ← pyGet body "message" (.dict [])
    let c1 ← pyGet msg1 "callId" .none
    let call_id ← if pyTruthy c1 then pure c1 else pyGet body "callId" .none
    let msg2 ← pyGet body "message" (.dict [])
    let l1 ← pyGet msg2 "toolCallList" .none
    let call_list ← if pyTruthy l1 then pure l1 else do
      let msg3 ← pyGet body "message" (.dict [])
      pyGet msg3 "toolCalls" .none
    pure (call_id, call_list) : Except PyErr (PyVal × PyVal)) with
  | .error _ => .errNoId
  | .ok (call_id, call_list) =>
    if !pyTruthy call_list then .malformed
    else
      match pySubscript call_list (.int 0) with
      | .error _ => .errNoId
      | .ok tool_call =>
        match pySubscript tool_call (.str "id") with
        | .error _ => .errNoId
        | .ok tool_id =>
          match (do
            let n1 ← pyGet tool_call "name" .none
            let tool_name ← if pyTruthy n1 then pure n1 else do
              let fn ← pyGet tool_call "function" (.dict [])
              pyGet fn "name" .none
            let a1 ← pyGet tool_call "arguments" .none
            let params0 ← if pyTruthy a1 then pure a1 else do
              let fn2 ← pyGet tool_call "function" (.dict [])
              pyGet fn2 "arguments" .none
            pure (tool_name, params0) : Except PyErr (PyVal × PyVal)) with
          | .error _ => .errWithId tool_id
          | .ok (tool_name, params0) =>
            let params :=
              match params0 with
              | .str s =>
                (match jsonLoads s with
                 | some v => v
                 | Option.none => .dict [])
              | p => p
            .ok call_id tool_id tool_name params

/-- The tool router.  The third component counts domain-handler invocations
(an observation used by the replay theorems).  The router's own `except`
clause in the source can only fire if a handler lets an exception escape;
all three handlers catch internally, so the handlers are total here. -/
def routeTool (env : Env) (tool_name params call_id : PyVal) (st : DomainState) :
    String × DomainState × Nat :=
  if pyEqStr tool_name "create_customer" then
    let r := handle_create_customer env params call_id st
    (r.1, r.2, 1)
  else if pyEqStr tool_name "place_order" then
    let r := handle_place_order env params call_id st
    (r.1, r.2, 1)
  else if pyEqStr tool_name "get_order_status" then
    let r := handle_get_order_status env params call_id st
    (r.1, r.2, 1)
  else
    ("Unknown tool: " ++ pyStrOf tool_name, st, 0)

/-- The fixed Vapi-v2 reply envelope. -/
def resultsEnvelope (toolId : PyVal) (result : String) : PyVal :=
  .dict [("results", .list [.dict [("toolCallId", toolId), ("result", .str result)]])]

/-- A bare `{"error": msg}` body. -/
def errorBody (msg : String) : PyVal := .dict [("error", .str msg)]

/-- The apology returned by the endpoint's top-level `except` clause. -/
def unexpectedApology : String := "I'm sorry—there was an unexpected error. Please try again."

/-- An HTTP reply: status code plus JSON body. -/
structure HttpReply where
  status : Nat
  body : PyVal

/-- Observable outcome of one `/tools` request: the reply, the state of the
external collaborators afterwards, how many domain handlers ran, and the
idempotency key that was computed (when control reached that point). -/
structure ToolsOutcome where
  reply : HttpReply
  state : ServerState
  handlerCalls : Nat
  idemKey : Option String

/-- The non-cache-hit tail of `/tools`: route, save the idempotency record,
log, and wrap in the results envelope with HTTP 200. -/
def dispatchFresh (env : Env) (st : ServerState) (key : String)
    (call_id tool_id tool_name params : PyVal) : ToolsOutcome :=
  let r := routeTool env tool_name params call_id st.domain
  let st1 := { st with domain := r.2.1 }
  let st2 := save_idempotency env st1 key tool_name call_id params r.1
  let st3 := log_tool_call env st2 tool_name params r.1 call_id
  ⟨⟨200, resultsEnvelope tool_id r.1⟩, st3, r.2.2, some key⟩

/-- The `/tools` endpoint.  `body` is the parsed request body; `.error ()`
models a request whose JSON could not be parsed at all.  A `check_idempotency`
hit is only taken when the cached result is truthy (`if existing_result:`),
so an empty cached string is re-executed. -/
def toolsRun (env : Env) (st : ServerState) (body : Except Unit PyVal) : ToolsOutcome :=
  match body with
  | .error _ => ⟨⟨500, errorBody unexpectedApology⟩, st, 0, Option.none⟩
  | .ok b =>
    match parseEnvelope b with
    | .errNoId => ⟨⟨500, errorBody unexpectedApology⟩, st, 0, Option.none⟩
    | .malformed => ⟨⟨400, errorBody "No tool calls in payload"⟩, st, 0, Option.none⟩
    | .errWithId tool_id => ⟨⟨500, resultsEnvelope tool_id unexpectedApology⟩, st, 0, Option.none⟩
    | .ok call_id tool_id tool_name params =>
      let key := generate_idempotency_key call_id tool_name params
      match check_idempotency env st key with
      | some cached =>
        if cached ≠ "" then ⟨⟨200, resultsEnvelope tool_id cached⟩, st, 0, some key⟩
        else dispatchFresh env st key call_id tool_id tool_name params
      | Option.none => dispatchFresh env st key call_id tool_id tool_name params

/-- A well-formed Vapi-v2 envelope carrying one tool call (no conversation
id), used by the concrete witnesses. -/
def wBody (tid tool : String) (args : PyVal) : PyVal :=
  .dict [("message", .dict
    [("toolCallList", .list
      [.dict [("id", .str tid), ("name", .str tool), ("arguments", args)]])])]

/-- `wBody` plus a top-level `callId`, for witnesses that need one. -/
def wBodyWithCall (cid tid tool : String) (args : PyVal) : PyVal :=
  .dict [("callId", .str cid), ("message", .dict
    [("toolCallList", .list
      [.dict [("id", .str tid), ("name", .str tool), ("arguments", args)]])])]

/-- The fingerprint of a `foo` call without conversation id.  Note the empty
`arguments` object is falsy, so the parser falls through to
`function.arguments` and the arguments become `None`. -/
def wKeyFoo : String := generate_idempotency_key .none (.str "foo") .none

/-- A state already holding the idempotency record of a processed `foo`
call. -/
def wStateCached : ServerState :=
  { emptyState with idem := [⟨wKeyFoo, .str "foo", .none, "null", "Unknown tool: foo"⟩] }

/-- A domain state holding one registered customer with phone
`+254712345678`. -/
def wCustomerDomain : DomainState :=
  ⟨[⟨"cust-1", "Asha", "+254712345678", "Nairobi", Option.none, 0, 0⟩], [], [], 0⟩

/-- A server state holding that one registered customer. -/
def wStateCustomer : ServerState := ⟨wCustomerDomain, [], []⟩

/-! ## Supporting lemmas -/

/-- Two `keyLe`-sorted lists of rendered entries that are permutations of each
other and have no duplicate keys are equal. -/
theorem sortedPermEq (l1 : List (String × String)) : ∀ l2 : List (String × String),
    l1.Perm l2 → l1.Sorted keyLe → l2.Sorted keyLe →
    (l1.map Prod.fst).Nodup → l1 = l2 := by
  induction l1 with
  | nil =>
    intro l2 hp _ _ _
    exact hp.nil_eq
  | cons a t1 ih =>
    intro l2 hp hs1 hs2 hn
    cases l2 with
    | nil => exact absurd hp.symm.nil_eq (by simp)
    | cons b t2 =>
      have hmem_b : b ∈ a :: t1 := hp.mem_iff.mpr (List.mem_cons_self b t2)
      have hmem_a : a ∈ b :: t2 := hp.mem_iff.mp (List.mem_cons_self a t1)
      have hs1' := List.sorted_cons.mp hs1
      have hs2' := List.sorted_cons.mp hs2
      have hn' : a.1 ∉ t1.map Prod.fst ∧ (t1.map Prod.fst).Nodup := by
        simpa using hn
      have heq : b = a := by
        rcases List.mem_cons.mp hmem_b with h | hbt1
        · exact h
        rcases List.mem_cons.mp hmem_a with h | hat2
        · exact h.symm
        have h1 : a.1 ≤ b.1 := hs1'.1 b hbt1
        have h2 : b.1 ≤ a.1 := hs2'.1 a hat2
        exfalso
        apply hn'.1
        have : b.1 ∈ t1.map Prod.fst := List.mem_map_of_mem Prod.fst hbt1
        rwa [le_antisymm h1 h2]
      subst heq
      have hp' : t1.Perm t2 := hp.cons_inv
      rw [ih t2 hp' hs1'.2 hs2'.2 hn'.2]

/-- Insertion sort by key sends key-nodup permutations to the same list. -/
theorem insertionSortPermEq (l1 l2 : List (String × String))
    (hp : l1.Perm l2) (hn : (l1.map Prod.fst).Nodup) :
    l1.insertionSort keyLe = l2.insertionSort keyLe :=
  sortedPermEq _ _
    (((List.perm_insertionSort keyLe l1).trans hp).trans
      (List.perm_insertionSort keyLe l2).symm)
    (List.sorted_insertionSort keyLe l1) (List.sorted_insertionSort keyLe l2)
    ((((List.perm_insertionSort keyLe l1).map Prod.fst).nodup_iff).mpr hn)

/-- `jsonObjectItems` is a `map`. -/
theorem jsonObjectItems_map (sk : Bool) (l : List (String × PyVal)) :
    jsonObjectItems sk l =
      l.map (fun kv => (kv.1, jsonQuote kv.1 ++ ": " ++ jsonValue sk kv.2)) := by
  induction l with
  | nil => rfl
  | cons kv rest ih => simp [jsonObjectItems, ih]

/-- `json.dumps(·, sort_keys=True)` is invariant under reordering of the keys
of the (duplicate-free) top-level object. -/
theorem jsonDumpsSorted_dict_perm (l1 l2 : List (String × PyVal))
    (hp : l1.Perm l2) (hn : (l1.map Prod.fst).Nodup) :
    jsonDumpsSorted (.dict l1) = jsonDumpsSorted (.dict l2) := by
  have hmap :
      (jsonObjectItems true l1).insertionSort keyLe =
        (jsonObjectItems true l2).insertionSort keyLe := by
    apply insertionSortPermEq
    · rw [jsonObjectItems_map, jsonObjectItems_map]
      exact hp.map _
    · rw [jsonObjectItems_map]
      simpa [List.map_map, Function.comp_def] using hn
  simp only [jsonDumpsSorted, jsonValue]
  rw [hmap]
  simp

/-- Reduce a bind of a successful `Except` computation. -/
@[simp] theorem except_ok_bind {ε α β : Type} (a : α) (f : α → Except ε β) :
    (Except.ok a : Except ε α) >>= f = f a := rfl

/-- A failed `Except` computation short-circuits a bind. -/
@[simp] theorem except_error_bind {ε α β : Type} (e : ε) (f : α → Except ε β) :
    (Except.error e : Except ε α) >>= f = Except.error e := rfl

/-- `pure` into `Except` is `Except.ok`. -/
@[simp] theorem except_pure_eq {ε α : Type} (a : α) :
    (pure a : Except ε α) = Except.ok a := rfl

/-- `Char.toLower` is idempotent. -/
theorem charToLower_idem (c : Char) : c.toLower.toLower = c.toLower := by
  simp only [Char.toLower]
  by_cases h : c.toNat ≥ 65 ∧ c.toNat ≤ 90
  · rw [if_pos h]
    have hvalid : Nat.isValidChar (c.toNat + 32) := Or.inl (by omega)
    have hval : (Char.ofNat (c.toNat + 32)).toNat = c.toNat + 32 := by
      unfold Char.ofNat
      rw [dif_pos hvalid]
      rfl
    rw [if_neg (by rw [hval]; omega)]
  · rw [if_neg h, if_neg h]

/-- `strLower` is idempotent, so the handler lower-casing the size before
`validate_cylinder_size` lower-cases it again is harmless. -/
theorem strLower_idem (s : String) : strLower (strLower s) = strLower s := by
  simp [strLower, List.map_map, Function.comp_def, charToLower_idem]

/-- `log_tool_call` never touches the idempotency table or the domain
tables. -/
theorem log_tool_call_untouched (env : Env) (st : ServerState)
    (tn p : PyVal) (r : String) (c : PyVal) :
    (log_tool_call env st tn p r c).idem = st.idem ∧
    (log_tool_call env st tn p r c).domain = st.domain := by
  unfold log_tool_call
  split <;> simp

/-! ## Claim theorems -/

/-- C2: `generate_idempotency_key` is deterministic — for every conversation
id, tool name and arguments mapping, supplying the same mapping with its keys
in a different order yields the same SHA-256 digest. -/
theorem idempotency_key_deterministic (cid tool : String)
    (l1 l2 : List (String × PyVal)) (hp : l1.Perm l2)
    (hn : (l1.map Prod.fst).Nodup) :
    generate_idempotency_key (.str cid) (.str tool) (.dict l1) =
      generate_idempotency_key (.str cid) (.str tool) (.dict l2) := by
  unfold generate_idempotency_key keyString
  rw [jsonDumpsSorted_dict_perm l1 l2 hp hn]

/-- C1: a request whose (conversationId, toolName, arguments) triple matches a
previously recorded idempotency record is answered with the stored result text
verbatim, with HTTP 200, with the collaborator state untouched (so no store
write and no order insert), and without invoking any domain handler.  The
stored result is assumed nonempty, which every sentence the gateway stores is;
`check_idempotency = some r` states that the lookup finds the prior record. -/
theorem replay_returns_cached_result (env : Env) (st : ServerState) (b : PyVal)
    (callId toolId toolName params : PyVal) (r : String)
    (hparse : parseEnvelope b = .ok callId toolId toolName params)
    (hcheck : check_idempotency env st
        (generate_idempotency_key callId toolName params) = some r)
    (hne : r ≠ "") :
    toolsRun env st (.ok b) =
      ⟨⟨200, resultsEnvelope toolId r⟩, st, 0,
        some (generate_idempotency_key callId toolName params)⟩ := by
  simp [toolsRun, hparse, hcheck, hne]

set_option maxRecDepth 40000

/-- Witness for C1: replaying the `foo` call against a state holding its
record returns the recorded text with no handler call and unchanged state. -/
theorem replay_returns_cached_result_witness :
    check_idempotency envOK wStateCached wKeyFoo = some "Unknown tool: foo" ∧
    toolsRun envOK wStateCached (.ok (wBody "t2" "foo" (.dict []))) =
      ⟨⟨200, resultsEnvelope (.str "t2") "Unknown tool: foo"⟩, wStateCached, 0, some wKeyFoo⟩ :=
  ⟨rfl,
   replay_returns_cached_result envOK wStateCached _ .none (.str "t2") (.str "foo") .none
     "Unknown tool: foo" rfl rfl (by decide)⟩

/-- C4: a well-formed envelope whose tool name matches none of the three
handlers (and which has no earlier idempotency record) is answered normally:
HTTP 200, the literal result `"Unknown tool: <name>"` inside the results
envelope, and no handler invocation — no exception escapes. -/
theorem unknown_tool_envelope (env : Env) (st : ServerState) (b : PyVal)
    (callId toolId params : PyVal) (name : String)
    (hparse : parseEnvelope b = .ok callId toolId (.str name) params)
    (h1 : name ≠ "create_customer") (h2 : name ≠ "place_order")
    (h3 : name ≠ "get_order_status")
    (hmiss : check_idempotency env st
        (generate_idempotency_key callId (.str name) params) = Option.none) :
    (toolsRun env st (.ok b)).reply.status = 200 ∧
    (toolsRun env st (.ok b)).reply.body =
      resultsEnvelope toolId ("Unknown tool: " ++ name) ∧
    (toolsRun env st (.ok b)).handlerCalls = 0 := by
  simp [toolsRun, hparse, hmiss, dispatchFresh, routeTool, pyEqStr, h1, h2, h3, pyStrOf]

/-- Witness for C4: the literal tool name `"foo"` on an empty store. -/
theorem unknown_tool_envelope_witness :
    (toolsRun envOK emptyState (.ok (wBody "t1" "foo" (.dict [])))).reply.status = 200 ∧
    (toolsRun envOK emptyState (.ok (wBody "t1" "foo" (.dict [])))).reply.body =
      resultsEnvelope (.str "t1") ("Unknown tool: " ++ "foo") ∧
    (toolsRun envOK emptyState (.ok (wBody "t1" "foo" (.dict [])))).handlerCalls = 0 :=
  unknown_tool_envelope envOK emptyState _ .none (.str "t1") .none "foo"
    rfl (by decide) (by decide) (by decide) rfl

/-- C10: every request that parses and misses the idempotency cache (and for
which the idempotency table is writable) gets an idempotency record saved
containing exactly the produced result text — the router's "Unknown tool"
text and the handlers' caught-exception apology sentences included — and an
identical retried request is answered with that persisted text verbatim, with
HTTP 200 and no handler invocation. -/
theorem result_persisted_and_replayed (env : Env) (st : ServerState) (b : PyVal)
    (callId toolId toolName params : PyVal)
    (hparse : parseEnvelope b = .ok callId toolId toolName params)
    (henv : env.dbFail "tool_call_idempotency" = Option.none)
    (hmiss : st.idem.filter (fun rec => rec.idempotency_key ==
        generate_idempotency_key callId toolName params) = [])
    (hne : (routeTool env toolName params callId st.domain).1 ≠ "") :
    (toolsRun env st (.ok b)).state.idem =
      st.idem ++ [⟨generate_idempotency_key callId toolName params, toolName, callId,
        jsonDumps params, (routeTool env toolName params callId st.domain).1⟩] ∧
    (toolsRun env (toolsRun env st (.ok b)).state (.ok b)).reply =
      ⟨200, resultsEnvelope toolId (routeTool env toolName params callId st.domain).1⟩ ∧
    (toolsRun env (toolsRun env st (.ok b)).state (.ok b)).handlerCalls = 0 := by
  have hcheck1 : check_idempotency env st
      (generate_idempotency_key callId toolName params) = Option.none := by
    simp [check_idempotency, henv, hmiss]
  have hrun1 : toolsRun env st (.ok b) =
      dispatchFresh env st (generate_idempotency_key callId toolName params)
        callId toolId toolName params := by
    simp [toolsRun, hparse, hcheck1]
  have hidem : (toolsRun env st (.ok b)).state.idem =
      st.idem ++ [⟨generate_idempotency_key callId toolName params, toolName, callId,
        jsonDumps params, (routeTool env toolName params callId st.domain).1⟩] := by
    rw [hrun1]
    simp [dispatchFresh, save_idempotency, henv,
      (log_tool_call_untouched _ _ _ _ _ _).1]
  set st1 := (toolsRun env st (.ok b)).state with hst1
  have hcheck2 : check_idempotency env st1
      (generate_idempotency_key callId toolName params) =
        some (routeTool env toolName params callId st.domain).1 := by
    simp [check_idempotency, henv, hidem, List.filter_append, hmiss]
  refine ⟨hidem, ?_, ?_⟩
  · simp [toolsRun, hparse, hcheck2, hne]
  · simp [toolsRun, hparse, hcheck2, hne]

/-- The environment in which the `customers` table is down but everything
else works: handler calls fail with a caught exception while the idempotency
store still records the apology. -/
def wEnvCustFail : Env :=
  ⟨fun t => if t == "customers" then some "connection refused" else Option.none⟩

/-- Witness for C10: with the customers table down, a `create_customer` call
produces the caught-exception apology, the apology is persisted, and the
identical retry is served from the record without running the handler. -/
theorem result_persisted_and_replayed_witness :
    (routeTool wEnvCustFail (.str "create_customer")
        (.dict [("name", .str "Asha"), ("phone", .str "+254712345678"),
                ("address", .str "Nairobi")]) (.str "c1") emptyState.domain).1 =
      "I'm sorry—there was an issue creating your account: Database error: connection refused. Please try again." ∧
    (toolsRun wEnvCustFail
        (toolsRun wEnvCustFail emptyState
          (.ok (wBodyWithCall "c1" "t1" "create_customer"
            (.dict [("name", .str "Asha"), ("phone", .str "+254712345678"),
                    ("address", .str "Nairobi")])))).state
        (.ok (wBodyWithCall "c1" "t1" "create_customer"
          (.dict [("name", .str "Asha"), ("phone", .str "+254712345678"),
                  ("address", .str "Nairobi")])))).handlerCalls = 0 :=
  ⟨rfl,
   (result_persisted_and_replayed wEnvCustFail emptyState
     (wBodyWithCall "c1" "t1" "create_customer"
       (.dict [("name", .str "Asha"), ("phone", .str "+254712345678"),
               ("address", .str "Nairobi")]))
     (.str "c1") (.str "t1") (.str "create_customer")
     (.dict [("name", .str "Asha"), ("phone", .str "+254712345678"),
             ("address", .str "Nairobi")])
     rfl rfl rfl (by decide)).2.2⟩

/-- C9: when the inbound envelope carries no conversation id, the fingerprint
pre-image embeds the literal string `"None"`; two such requests with equal
tool name and arguments therefore share a fingerprint, and the second one is
served the first one's cached result without its handler executing. -/
theorem missing_call_id_collision (env : Env) (st : ServerState) (b1 b2 : PyVal)
    (tid1 tid2 toolName params : PyVal)
    (hp1 : parseEnvelope b1 = .ok .none tid1 toolName params)
    (hp2 : parseEnvelope b2 = .ok .none tid2 toolName params)
    (henv : env.dbFail "tool_call_idempotency" = Option.none)
    (hmiss : st.idem.filter (fun rec => rec.idempotency_key ==
        generate_idempotency_key .none toolName params) = [])
    (hne : (routeTool env toolName params .none st.domain).1 ≠ "") :
    keyString .none toolName params =
      "None" ++ "|" ++ pyStrOf toolName ++ "|" ++ jsonDumpsSorted params ∧
    (toolsRun env st (.ok b1)).idemKey =
      (toolsRun env (toolsRun env st (.ok b1)).state (.ok b2)).idemKey ∧
    (toolsRun env (toolsRun env st (.ok b1)).state (.ok b2)).reply =
      ⟨200, resultsEnvelope tid2 (routeTool env toolName params .none st.domain).1⟩ ∧
    (toolsRun env (toolsRun env st (.ok b1)).state (.ok b2)).handlerCalls = 0 := by
  have hcheck1 : check_idempotency env st
      (generate_idempotency_key .none toolName params) = Option.none := by
    simp [check_idempotency, henv, hmiss]
  have hidem : (toolsRun env st (.ok b1)).state.idem =
      st.idem ++ [⟨generate_idempotency_key .none toolName params, toolName, .none,
        jsonDumps params, (routeTool env toolName params .none st.domain).1⟩] := by
    simp [toolsRun, hp1, hcheck1, dispatchFresh, save_idempotency, henv,
      (log_tool_call_untouched _ _ _ _ _ _).1]
  have hkey1 : (toolsRun env st (.ok b1)).idemKey =
      some (generate_idempotency_key .none toolName params) := by
    simp [toolsRun, hp1, hcheck1, dispatchFresh]
  set st1 := (toolsRun env st (.ok b1)).state with hst1
  have hcheck2 : check_idempotency env st1
      (generate_idempotency_key .none toolName params) =
        some (routeTool env toolName params .none st.domain).1 := by
    simp [check_idempotency, henv, hidem, List.filter_append, hmiss]
  refine ⟨by simp [keyString, pyStrOf], ?_, ?_, ?_⟩
  · rw [hkey1]
    simp [toolsRun, hp2, hcheck2, hne]
  · simp [toolsRun, hp2, hcheck2, hne]
  · simp [toolsRun, hp2, hcheck2, hne]

/-- Witness for C9: two `foo` requests with different tool-call ids and no
conversation id; the second is served the first's cached text. -/
theorem missing_call_id_collision_witness :
    keyString .none (.str "foo") .none =
      "None" ++ "|" ++ pyStrOf (PyVal.str "foo") ++ "|" ++ jsonDumpsSorted .none ∧
    (toolsRun envOK
        (toolsRun envOK emptyState (.ok (wBody "t1" "foo" (.dict [])))).state
        (.ok (wBody "t2" "foo" (.dict [])))).reply =
      ⟨200, resultsEnvelope (.str "t2")
        (routeTool envOK (.str "foo") .none .none emptyState.domain).1⟩ :=
  ⟨(missing_call_id_collision envOK emptyState (wBody "t1" "foo" (.dict []))
      (wBody "t2" "foo" (.dict [])) (.str "t1") (.str "t2")
      (.str "foo") .none rfl rfl rfl rfl (by decide)).1,
   (missing_call_id_collision envOK emptyState (wBody "t1" "foo" (.dict []))
      (wBody "t2" "foo" (.dict [])) (.str "t1") (.str "t2")
      (.str "foo") .none rfl rfl rfl rfl (by decide)).2.2.1⟩

/-- C5: for a `place_order` call with a resolvable phone of a registered
customer, a valid cylinder size and a healthy store, the quantity argument is
accepted exactly when `int()` parses it to a value in 1..10: a nonpositive
value yields the "must be greater than zero" message, a value above 10 the
"contact our sales team directly" message, and an unparsable value the
"valid number" message — each leaving the store untouched — while 1..10
proceeds to order placement: an order row with that quantity is inserted. -/
theorem quantity_validation_gate (env : Env) (st : DomainState)
    (ph ph' cs sz : String) (q : PyVal) (cust : Customer) (crest : List Customer)
    (hph : ph ≠ "") (hnorm : normalize_phone (.str ph) = .str ph') (hph' : ph' ≠ "")
    (hsize : validate_cylinder_size (strLower cs) = (true, sz))
    (hcust : findCustomersByPhone st (.str ph') = cust :: crest)
    (henvC : env.dbFail "customers" = Option.none)
    (henvO : env.dbFail "orders" = Option.none) :
    (∀ n : Int, pyInt q = .ok n → n ≤ 0 →
      handle_place_order env
          (.dict [("phone", .str ph), ("cylinder_size", .str cs), ("quantity", q)]) .none st =
        ("Quantity must be greater than zero.", st)) ∧
    (∀ n : Int, pyInt q = .ok n → n > 10 →
      handle_place_order env
          (.dict [("phone", .str ph), ("cylinder_size", .str cs), ("quantity", q)]) .none st =
        ("For orders above 10 cylinders, please contact our sales team directly.", st)) ∧
    (∀ e : PyErr, pyInt q = .error e →
      handle_place_order env
          (.dict [("phone", .str ph), ("cylinder_size", .str cs), ("quantity", q)]) .none st =
        ("Please provide a valid number for quantity.", st)) ∧
    (∀ n : Int, pyInt q = .ok n → 1 ≤ n → n ≤ 10 →
      (handle_place_order env
          (.dict [("phone", .str ph), ("cylinder_size", .str cs), ("quantity", q)]) .none st).2.orders =
        st.orders ++ [⟨nextOrderId st, cust.id, sz, n,
          (if sz = "6kg" then 1200 else 2500), (if sz = "6kg" then 1200 else 2500) * n,
          .none, .str "", "pending"⟩]) := by
  have hmem : sz = "6kg" ∨ sz = "13kg" := by
    simp only [validate_cylinder_size] at hsize
    split at hsize
    · rename_i hc
      injection hsize with h1 h2
      subst h2
      simpa [VALID_CYLINDER_SIZES, List.contains] using hc
    · injection hsize with h1 h2
      cases h1
  refine ⟨?_, ?_, ?_, ?_⟩
  · intro n hq hle
    simp [handle_place_order, placeOrderCore, pyGet, pyOr, pyTruthy, hph,
      phone_from_customer_id, hnorm, hph', pyLowerE, hsize, validate_quantity, hq, hle,
      Int.not_lt.mpr hle]
  · intro n hq hgt
    have h1 : ¬ n ≤ 0 := by omega
    simp [handle_place_order, placeOrderCore, pyGet, pyOr, pyTruthy, hph,
      phone_from_customer_id, hnorm, hph', pyLowerE, hsize, validate_quantity, hq, h1, hgt]
  · intro e hq
    simp [handle_place_order, placeOrderCore, pyGet, pyOr, pyTruthy, hph,
      phone_from_customer_id, hnorm, hph', pyLowerE, hsize, validate_quantity, hq]
  · intro n hq h1 h10
    have hn0 : ¬ n ≤ 0 := by omega
    have hn10 : ¬ n > 10 := by omega
    rcases hmem with h | h <;>
      subst h <;>
      simp [handle_place_order, placeOrderCore, pyGet, pyOr, pyTruthy, hph,
        phone_from_customer_id, hnorm, hph', pyLowerE, hsize, validate_quantity, hq,
        hn0, hn10, henvC, henvO, hcust, db_insert_order, PRICING, nextOrderId]

/-- Witness for C5: quantities 0, 11, `"abc"` and 2 against a registered
customer. -/
theorem quantity_validation_gate_witness :
    handle_place_order envOK
        (.dict [("phone", .str "+254712345678"), ("cylinder_size", .str "6kg"),
                ("quantity", .int 0)]) .none wCustomerDomain =
      ("Quantity must be greater than zero.", wCustomerDomain) ∧
    handle_place_order envOK
        (.dict [("phone", .str "+254712345678"), ("cylinder_size", .str "6kg"),
                ("quantity", .int 11)]) .none wCustomerDomain =
      ("For orders above 10 cylinders, please contact our sales team directly.", wCustomerDomain) ∧
    handle_place_order envOK
        (.dict [("phone", .str "+254712345678"), ("cylinder_size", .str "6kg"),
                ("quantity", .str "abc")]) .none wCustomerDomain =
      ("Please provide a valid number for quantity.", wCustomerDomain) ∧
    (handle_place_order envOK
        (.dict [("phone", .str "+254712345678"), ("cylinder_size", .str "6kg"),
                ("quantity", .int 2)]) .none wCustomerDomain).2.orders =
      wCustomerDomain.orders ++ [⟨nextOrderId wCustomerDomain, "cust-1", "6kg", 2, 1200, 2400,
        .none, .str "", "pending"⟩] := by
  have h := quantity_validation_gate envOK wCustomerDomain "+254712345678" "+254712345678"
    "6kg" "6kg" (.int 0) ⟨"cust-1", "Asha", "+254712345678", "Nairobi", Option.none, 0, 0⟩ []
    (by decide) rfl (by decide) rfl rfl rfl rfl
  have h11 := quantity_validation_gate envOK wCustomerDomain "+254712345678" "+254712345678"
    "6kg" "6kg" (.int 11) ⟨"cust-1", "Asha", "+254712345678", "Nairobi", Option.none, 0, 0⟩ []
    (by decide) rfl (by decide) rfl rfl rfl rfl
  have habc := quantity_validation_gate envOK wCustomerDomain "+254712345678" "+254712345678"
    "6kg" "6kg" (.str "abc") ⟨"cust-1", "Asha", "+254712345678", "Nairobi", Option.none, 0, 0⟩ []
    (by decide) rfl (by decide) rfl rfl rfl rfl
  have h2 := quantity_validation_gate envOK wCustomerDomain "+254712345678" "+254712345678"
    "6kg" "6kg" (.int 2) ⟨"cust-1", "Asha", "+254712345678", "Nairobi", Option.none, 0, 0⟩ []
    (by decide) rfl (by decide) rfl rfl rfl rfl
  exact ⟨h.1 0 rfl (by omega), h11.2.1 11 rfl (by omega),
    habc.2.2.1 ⟨.valueError, "invalid literal for int() with base 10: 'abc'"⟩ rfl,
    by simpa using h2.2.2.2 2 rfl (by omega) (by omega)⟩

/-- Counterexample to C6 as stated: the size string `" 6kg"` is not
case-insensitively equal to `"6kg"` or `"13kg"`, yet `place_order` accepts it
and inserts an order, because `validate_cylinder_size` also strips
surrounding whitespace. -/
theorem cylinder_size_claim_counterexample :
    strLower " 6kg" ≠ "6kg" ∧ strLower " 6kg" ≠ "13kg" ∧
    handle_place_order envOK
        (.dict [("phone", .str "+254712345678"), ("cylinder_size", .str " 6kg"),
                ("quantity", .int 2)]) .none wCustomerDomain =
      ("Excellent! Your order has been placed successfully, Asha. Order ID: order-1. You'll receive 2 × 6kg cylinders on tomorrow for a total of 2400 KES. Our delivery team will call you before arrival.",
       ⟨wCustomerDomain.customers,
        [⟨"order-1", "cust-1", "6kg", 2, 1200, 2400, .none, .str "", "pending"⟩], [], 0⟩) :=
  ⟨by decide, by decide, rfl⟩

/-- C6 amended (the code trims surrounding whitespace in addition to
lower-casing, so e.g. `" 6kg"` is accepted): for a `place_order` call with a
resolvable phone of a registered customer and a healthy store, a string
`cylinder_size` is accepted exactly when its lower-cased,
whitespace-trimmed form equals `"6kg"` or `"13kg"` (so `"13KG"` normalizes
and is accepted); any other string yields the validation message naming the
two valid choices and no order is inserted. -/
theorem cylinder_size_validation_gate (env : Env) (st : DomainState)
    (ph ph' cs : String) (cust : Customer) (crest : List Customer)
    (hph : ph ≠ "") (hnorm : normalize_phone (.str ph) = .str ph') (hph' : ph' ≠ "")
    (hcust : findCustomersByPhone st (.str ph') = cust :: crest)
    (henvC : env.dbFail "customers" = Option.none)
    (henvO : env.dbFail "orders" = Option.none) :
    (¬ (stripStr (strLower cs) = "6kg" ∨ stripStr (strLower cs) = "13kg") →
      handle_place_order env
          (.dict [("phone", .str ph), ("cylinder_size", .str cs),
                  ("quantity", .int 2)]) .none st =
        ("Invalid cylinder size. Please choose either 6kg or 13kg.", st)) ∧
    ((stripStr (strLower cs) = "6kg" ∨ stripStr (strLower cs) = "13kg") →
      (handle_place_order env
          (.dict [("phone", .str ph), ("cylinder_size", .str cs),
                  ("quantity", .int 2)]) .none st).2.orders =
        st.orders ++ [⟨nextOrderId st, cust.id, stripStr (strLower cs), 2,
          (if stripStr (strLower cs) = "6kg" then 1200 else 2500),
          (if stripStr (strLower cs) = "6kg" then 1200 else 2500) * 2,
          .none, .str "", "pending"⟩]) := by
  have hv : validate_cylinder_size (strLower cs) =
      (if stripStr (strLower cs) = "6kg" ∨ stripStr (strLower cs) = "13kg" then
        (true, stripStr (strLower cs))
      else (false, "Invalid cylinder size. Please choose either 6kg or 13kg.")) := by
    simp only [validate_cylinder_size, strLower_idem, VALID_CYLINDER_SIZES, List.contains]
    split <;> rename_i h <;> split <;> rename_i h2 <;> simp_all
  constructor
  · intro hno
    rw [if_neg hno] at hv
    simp [handle_place_order, placeOrderCore, pyGet, pyOr, pyTruthy, hph,
      phone_from_customer_id, hnorm, hph', pyLowerE, hv]
  · intro hyes
    rw [if_pos hyes] at hv
    rcases hyes with h | h <;>
      simp [handle_place_order, placeOrderCore, pyGet, pyOr, pyTruthy, hph,
        phone_from_customer_id, hnorm, hph', pyLowerE, hv, validate_quantity, pyInt,
        henvC, henvO, hcust, db_insert_order, PRICING, h, nextOrderId]

/-- Witness for C6 amended: `"20kg"` is rejected with the validation message;
`"13KG"` normalizes to `"13kg"` and is accepted, inserting the order. -/
theorem cylinder_size_validation_gate_witness :
    handle_place_order envOK
        (.dict [("phone", .str "+254712345678"), ("cylinder_size", .str "20kg"),
                ("quantity", .int 2)]) .none wCustomerDomain =
      ("Invalid cylinder size. Please choose either 6kg or 13kg.", wCustomerDomain) ∧
    (handle_place_order envOK
        (.dict [("phone", .str "+254712345678"), ("cylinder_size", .str "13KG"),
                ("quantity", .int 2)]) .none wCustomerDomain).2.orders =
      [⟨"order-1", "cust-1", "13kg", 2, 2500, 5000, .none, .str "", "pending"⟩] := by
  have hrej := (cylinder_size_validation_gate envOK wCustomerDomain "+254712345678"
    "+254712345678" "20kg" ⟨"cust-1", "Asha", "+254712345678", "Nairobi", Option.none, 0, 0⟩
    [] (by decide) rfl (by decide) rfl rfl rfl).1 (by decide)
  have hacc := (cylinder_size_validation_gate envOK wCustomerDomain "+254712345678"
    "+254712345678" "13KG" ⟨"cust-1", "Asha", "+254712345678", "Nairobi", Option.none, 0, 0⟩
    [] (by decide) rfl (by decide) rfl rfl rfl).2 (by decide)
  exact ⟨hrej, by simpa using hacc⟩

/-- C7: a `create_customer` call in which name, phone, or address is empty
(or absent, the `.get` default being the empty string) returns the targeted
prompt for that field — the checks run in `name`, `phone`, `address` order —
and the store state is returned entirely unchanged, so no customer write
happens.  The email argument is assumed absent or `None`, as in the claim's
scenarios. -/
theorem create_customer_missing_field (env : Env) (st : DomainState)
    (params call_id : PyVal) (ns as : String) (pv : PyVal)
    (hname : pyGet params "name" (.str "") = .ok (.str ns))
    (hphone : pyGet params "phone" (.str "") = .ok pv)
    (haddr : pyGet params "address" (.str "") = .ok (.str as))
    (hemail : pyGet params "email" .none = .ok .none) :
    (stripStr ns = "" →
      handle_create_customer env params call_id st =
        ("I need your name to create an account. Could you please tell me your name?", st)) ∧
    (stripStr ns ≠ "" → pyTruthy (normalize_phone pv) = false →
      handle_create_customer env params call_id st =
        ("I need your phone number to create an account. Could you please provide it?", st)) ∧
    (stripStr ns ≠ "" → pyTruthy (normalize_phone pv) = true → stripStr as = "" →
      handle_create_customer env params call_id st =
        ("I need your delivery address to create an account. Could you please provide your address?", st)) := by
  refine ⟨?_, ?_, ?_⟩
  · intro hns
    simp [handle_create_customer, createCustomerCore, hname, hphone, haddr, hemail,
      pyStripE, pyTruthy, hns]
  · intro hns hp
    simp [handle_create_customer, createCustomerCore, hname, hphone, haddr, hemail,
      pyStripE, hns, hp, show pyTruthy PyVal.none = false from rfl]
  · intro hns hp has
    simp [handle_create_customer, createCustomerCore, hname, hphone, haddr, hemail,
      pyStripE, hns, hp, has, show pyTruthy PyVal.none = false from rfl]

/-- Witness for C7: the claim's own scenario
`create_customer({name:"", phone:"+254700000000", address:"X"})` prompts for
the name and performs no store write. -/
theorem create_customer_missing_field_witness :
    handle_create_customer envOK
        (.dict [("name", .str ""), ("phone", .str "+254700000000"),
                ("address", .str "X")]) .none emptyState.domain =
      ("I need your name to create an account. Could you please tell me your name?",
        emptyState.domain) :=
  (create_customer_missing_field envOK emptyState.domain
    (.dict [("name", .str ""), ("phone", .str "+254700000000"), ("address", .str "X")])
    .none "" "X" (.str "+254700000000") rfl rfl rfl rfl).1 (by decide)

/-- C8 (the divergence, evaluated): with no customer row for the resolvable
phone `+254700000000`, `handle_get_order_status` does not return the
"would you like me to create one" prompt — the `.single()` customer lookup
raises on zero rows (the behaviour the code's own `check_idempotency` comment
documents as expected), so the handler's catch yields the generic
order-status apology instead; the prompt branch in the source is dead. -/
theorem order_status_unknown_phone_divergence :
    handle_get_order_status envOK (.dict [("phone", .str "+254700000000")]) .none
        emptyState.domain =
      ("I'm sorry, there was an issue checking your order status: " ++ singleRowErrMsg ++
        ". Please try again.", emptyState.domain) ∧
    (handle_get_order_status envOK (.dict [("phone", .str "+254700000000")]) .none
        emptyState.domain).1 ≠
      "I couldn’t find an account with that phone number. Would you like me to create one for you first?" :=
  ⟨rfl, by decide⟩

/-- Counterexample to C3 as stated: a request that raises an uncategorized
unexpected error after `tool_id` is bound (here the envelope's `function`
field is a string, so `.get` raises `AttributeError`) is answered with the
generic apology but with HTTP 500 — not 200 — although the toolCallId is
known and appears in the reply envelope. -/
theorem unexpected_error_status_counterexample :
    (toolsRun envOK emptyState (.ok (.dict [("message", .dict [("toolCallList",
        .list [.dict [("id", .str "x"), ("function", .str "weird")]])])]))).reply =
      ⟨500, resultsEnvelope (.str "x") unexpectedApology⟩ := rfl

/-- C3 amended: an uncategorized unexpected error always yields a generic
apology, but the status depends on where it surfaces: HTTP 500 with a bare
error body when it occurs before `tool_id` is bound, HTTP 500 with the
apology inside the results envelope when it reaches the top-level catch after
`tool_id` is bound, and HTTP 200 when it is caught inside a domain handler
(whose caught-exception sentence is wrapped normally). -/
theorem unexpected_error_paths :
    (∀ (env : Env) (st : ServerState),
      toolsRun env st (.error ()) =
        ⟨⟨500, errorBody unexpectedApology⟩, st, 0, Option.none⟩) ∧
    (∀ (env : Env) (st : ServerState) (b tid : PyVal),
      parseEnvelope b = .errWithId tid →
      toolsRun env st (.ok b) =
        ⟨⟨500, resultsEnvelope tid unexpectedApology⟩, st, 0, Option.none⟩) ∧
    (∀ (env : Env) (st : ServerState) (b callId toolId params : PyVal),
      parseEnvelope b = .ok callId toolId (.str "create_customer") params →
      check_idempotency env st
          (generate_idempotency_key callId (.str "create_customer") params) = Option.none →
      (toolsRun env st (.ok b)).reply =
        ⟨200, resultsEnvelope toolId
          (handle_create_customer env params callId st.domain).1⟩) := by
  refine ⟨fun env st => rfl, fun env st b tid hp => by simp [toolsRun, hp], ?_⟩
  intro env st b callId toolId params hp hmiss
  simp [toolsRun, hp, hmiss, dispatchFresh, routeTool, pyEqStr]

/-- Witness for C3 amended: an unparsable body gives the bare 500 apology; a
`create_customer` call against a downed customers table gives the
handler-caught apology sentence with HTTP 200. -/
theorem unexpected_error_paths_witness :
    toolsRun envOK emptyState (.error ()) =
      ⟨⟨500, errorBody unexpectedApology⟩, emptyState, 0, Option.none⟩ ∧
    (toolsRun wEnvCustFail emptyState
        (.ok (wBodyWithCall "c1" "t1" "create_customer"
          (.dict [("name", .str "Asha"), ("phone", .str "+254712345678"),
                  ("address", .str "Nairobi")])))).reply =
      ⟨200, resultsEnvelope (.str "t1")
        "I'm sorry—there was an issue creating your account: Database error: connection refused. Please try again."⟩ := by
  constructor
  · exact unexpected_error_paths.1 envOK emptyState
  · rw [unexpected_error_paths.2.2 wEnvCustFail emptyState
      (wBodyWithCall "c1" "t1" "create_customer"
        (.dict [("name", .str "Asha"), ("phone", .str "+254712345678"),
                ("address", .str "Nairobi")]))
      (.str "c1") (.str "t1")
      (.dict [("name", .str "Asha"), ("phone", .str "+254712345678"),
              ("address", .str "Nairobi")]) rfl rfl]
    rfl

/-- Witness for C2: a concrete two-key mapping supplied in both orders. -/
theorem idempotency_key_deterministic_witness :
    (([("a", PyVal.int 1), ("b", PyVal.str "x")] : List (String × PyVal)).map
        Prod.fst).Nodup ∧
    generate_idempotency_key (.str "conv-1") (.str "place_order")
        (.dict [("a", .int 1), ("b", .str "x")]) =
      generate_idempotency_key (.str "conv-1") (.str "place_order")
        (.dict [("b", .str "x"), ("a", .int 1)]) :=
  ⟨by decide,
   idempotency_key_deterministic "conv-1" "place_order" _ _
     (List.Perm.swap ("b", PyVal.str "x") ("a", PyVal.int 1) []) (by decide)⟩

end LPG
